import Mathlib

/-!
Shallow embedding of the wire-gauge voltage-drop calculator (`src/main.rs`).
Floating-point arithmetic of the source is modelled exactly over `ℚ`
(every literal of the source is an exact decimal).
-/

namespace Wgrs

/-- Embedding of the `Args` structure built by the argument parser
(`src/main.rs` lines 10-30): voltage, current, one-way distance,
maximum acceptable drop percentage, and the optional gauge filter. -/
structure Args where
  voltage : ℚ
  current : ℚ
  distance : ℚ
  max_drop : ℚ
  gauges : Option (List Int)

/-- The static gauge table (`src/main.rs` lines 35-55):
(gauge number, display name, resistance in ohms per 1000 feet).
Multi-zero gauges use negative numbers. -/
def WIRE_GAUGES : List (Int × String × ℚ) :=
  [ (28, "28 AWG", 64.90),
    (26, "26 AWG", 40.81),
    (24, "24 AWG", 25.67),
    (22, "22 AWG", 16.14),
    (20, "20 AWG", 10.15),
    (18, "18 AWG", 6.385),
    (16, "16 AWG", 4.016),
    (14, "14 AWG", 2.51),
    (12, "12 AWG", 1.588),
    (10, "10 AWG", 0.999),
    (8, "8 AWG", 0.628),
    (6, "6 AWG", 0.395),
    (4, "4 AWG", 0.248),
    (2, "2 AWG", 0.156),
    (1, "1 AWG", 0.123),
    (0, "0 AWG", 0.0983),
    (-2, "00 AWG", 0.0780),
    (-3, "000 AWG", 0.0619),
    (-4, "0000 AWG", 0.0491) ]

/-- `valid_gauges` (`src/main.rs` line 62): the identifiers of the table. -/
def valid_gauges : List Int := WIRE_GAUGES.map (fun e => e.1)

/-- `total_distance = args.distance * 2.0` (`src/main.rs` line 75). -/
def totalDistance (args : Args) : ℚ := args.distance * 2

/-- The list of gauges the loop actually processes (`src/main.rs` lines 83-89):
all of `WIRE_GAUGES` when no filter is given, otherwise the table entries whose
gauge number the requested list contains (the loop `continue`s past the rest). -/
def considered (gauges : Option (List Int)) : List (Int × String × ℚ) :=
  match gauges with
  | none => WIRE_GAUGES
  | some req => WIRE_GAUGES.filter (fun e => req.contains e.1)

/-- `total_resistance = (resistance_per_1000 * total_distance) / 1000.0`
(`src/main.rs` line 92). -/
def totalResistance (args : Args) (resistance_per_1000 : ℚ) : ℚ :=
  resistance_per_1000 * totalDistance args / 1000

/-- `voltage_drop = args.current * total_resistance` (`src/main.rs` line 95). -/
def voltageDrop (args : Args) (resistance_per_1000 : ℚ) : ℚ :=
  args.current * totalResistance args resistance_per_1000

/-- `drop_percentage = (voltage_drop / args.voltage) * 100.0`
(`src/main.rs` line 98). -/
def dropPercentage (args : Args) (resistance_per_1000 : ℚ) : ℚ :=
  voltageDrop args resistance_per_1000 / args.voltage * 100

/-- One rendered table row (`src/main.rs` lines 110-116): display name, the
three computed quantities, and the status string chosen on line 101. -/
structure CalcRow where
  display_name : String
  total_resistance : ℚ
  voltage_drop : ℚ
  drop_percentage : ℚ
  status : String
deriving DecidableEq

/-- Builds the row the loop body adds for one table entry
(`src/main.rs` lines 92-116). -/
def mkRow (args : Args) (e : Int × String × ℚ) : CalcRow :=
  { display_name := e.2.1
    total_resistance := totalResistance args e.2.2
    voltage_drop := voltageDrop args e.2.2
    drop_percentage := dropPercentage args e.2.2
    status := if dropPercentage args e.2.2 ≤ args.max_drop then "✓ OK"
              else "✗ Too much drop" }

/-- All data rows of the rendered table, in loop order. -/
def rowsFor (args : Args) : List CalcRow :=
  (considered args.gauges).map (mkRow args)

/-- One loop iteration's effect on the `recommended` mutable variable
(`src/main.rs` lines 101-108): the first passing gauge records its display
name, voltage drop and drop percentage; later iterations leave it alone. -/
def recStep (args : Args) (acc : Option (String × ℚ × ℚ))
    (e : Int × String × ℚ) : Option (String × ℚ × ℚ) :=
  if dropPercentage args e.2.2 ≤ args.max_drop then
    if acc.isNone then some (e.2.1, voltageDrop args e.2.2, dropPercentage args e.2.2)
    else acc
  else acc

/-- The final value of `recommended` after the loop (`src/main.rs` line 81,
lines 101-108). -/
def recommendedFor (args : Args) : Option (String × ℚ × ℚ) :=
  (considered args.gauges).foldl (recStep args) none

/-- Boolean pass test for a table entry: `drop_percentage <= args.max_drop`
(`src/main.rs` line 101). -/
def passesB (args : Args) (e : Int × String × ℚ) : Bool :=
  decide (dropPercentage args e.2.2 ≤ args.max_drop)

/-- What the process emits: either the invalid-gauge error path
(`src/main.rs` lines 60-72, stderr then `exit(1)`), or the full report
(parameters block, table, recommendation). -/
inductive Output where
  | invalidGauge (offending : Int) (validPositive : List Int) : Output
  | report (rows : List CalcRow) (recommended : Option (String × ℚ × ℚ)) : Output
deriving DecidableEq

/-- The whole of `main` (`src/main.rs` lines 57-139): validate the filter
(first invalid requested gauge aborts with the valid positive identifiers),
otherwise produce the report. -/
def run (args : Args) : Output :=
  match args.gauges with
  | some req =>
    match req.find? (fun g => !(valid_gauges.contains g)) with
    | some g => Output.invalidGauge g (valid_gauges.filter (fun x => decide (x > 0)))
    | none => Output.report (rowsFor args) (recommendedFor args)
  | none => Output.report (rowsFor args) (recommendedFor args)

/-- Process exit status: 1 on the invalid-gauge path (`std::process::exit(1)`,
`src/main.rs` line 69), 0 otherwise. -/
def exitCode : Output → Nat
  | Output.invalidGauge _ _ => 1
  | Output.report _ _ => 0

/-- The summary line printed after the table (`src/main.rs` lines 133-138). -/
def finalLine : Option (String × ℚ × ℚ) → String
  | some (gauge, _, _) => "Recommended gauge: " ++ gauge
  | none => "WARNING: Even the largest gauge exceeds acceptable voltage drop!"

/-- The default scenario of the spec: voltage 120 V, current 20 A,
one-way distance 50 ft, max drop 3 %, no filter. -/
def args₀ : Args := ⟨120, 20, 50, 3, none⟩

/-! ### Helper lemmas -/

/-- `List.contains` agrees with decidable membership on `Int` lists. -/
lemma contains_eq_decide (l : List Int) (a : Int) : l.contains a = decide (a ∈ l) := by
  by_cases h : a ∈ l <;> simp [h]

/-- Once `recommended` is set, later iterations never change it. -/
lemma recStep_foldl_frozen (args : Args) (l : List (Int × String × ℚ))
    (x : String × ℚ × ℚ) : l.foldl (recStep args) (some x) = some x := by
  induction l with
  | nil => rfl
  | cons e l ih =>
      have hstep : recStep args (some x) e = some x := by
        unfold recStep
        split <;> simp
      rw [List.foldl_cons, hstep, ih]

/-- The loop's `recommended` variable ends up holding the data of the first
entry that passes, exactly as `List.find?` computes it. -/
lemma recommendedFor_eq_find (args : Args) :
    recommendedFor args = ((considered args.gauges).find? (passesB args)).map
      (fun e => (e.2.1, voltageDrop args e.2.2, dropPercentage args e.2.2)) := by
  unfold recommendedFor
  induction considered args.gauges with
  | nil => rfl
  | cons e l ih =>
      by_cases hp : passesB args e = true
      · have hdp : dropPercentage args e.2.2 ≤ args.max_drop := by
          simpa [passesB] using hp
        rw [List.foldl_cons, List.find?_cons_of_pos _ hp]
        have hstep : recStep args none e
            = some (e.2.1, voltageDrop args e.2.2, dropPercentage args e.2.2) := by
          unfold recStep
          rw [if_pos hdp]
          rfl
        rw [hstep, recStep_foldl_frozen]
        rfl
      · have hdp : ¬ dropPercentage args e.2.2 ≤ args.max_drop := by
          simpa [passesB] using hp
        rw [List.foldl_cons, List.find?_cons_of_neg _ hp]
        have hstep : recStep args none e = none := by
          unfold recStep
          rw [if_neg hdp]
        rw [hstep, ih]

/-- When some element satisfies `p`, the list splits around the first one,
and `find?` returns exactly that element. -/
lemma find_first_decomp {α : Type} (p : α → Bool) :
    ∀ l : List α, (∃ x ∈ l, p x = true) →
      ∃ pre x post, l = pre ++ x :: post ∧ (∀ y ∈ pre, p y = false)
        ∧ p x = true ∧ l.find? p = some x := by
  intro l
  induction l with
  | nil => rintro ⟨x, hx, -⟩; exact absurd hx (List.not_mem_nil x)
  | cons a l ih =>
      intro h
      by_cases hp : p a = true
      · exact ⟨[], a, l, rfl, by simp, hp, List.find?_cons_of_pos _ hp⟩
      · have h' : ∃ x ∈ l, p x = true := by
          rcases h with ⟨x, hx, hpx⟩
          rcases List.mem_cons.mp hx with rfl | hx'
          · exact absurd hpx hp
          · exact ⟨x, hx', hpx⟩
        rcases ih h' with ⟨pre, x, post, hsplit, hpre, hpx, hfind⟩
        refine ⟨a :: pre, x, post, by rw [hsplit]; rfl, ?_, hpx, ?_⟩
        · intro y hy
          rcases List.mem_cons.mp hy with rfl | hy'
          · exact Bool.not_eq_true _ ▸ (by simpa using hp)
          · exact hpre y hy'
        · rw [List.find?_cons_of_neg _ hp, hfind]

/-- The gauge identifiers of the table are pairwise distinct. -/
lemma wire_ids_nodup : (WIRE_GAUGES.map (fun e => e.1)).Nodup := by decide

/-- Along the table, the resistance of a later entry is strictly below the
resistance of any earlier entry. -/
lemma wire_res_strict_anti :
    List.Pairwise (fun a b : Int × String × ℚ => b.2.2 < a.2.2) WIRE_GAUGES := by
  simp only [WIRE_GAUGES, List.pairwise_cons, List.forall_mem_cons,
    List.not_mem_nil, List.forall_mem_ne, List.Pairwise.nil, and_true,
    List.forall_mem_nil]
  norm_num

/-! ### Claim theorems -/

/-- The 12 AWG table entry, used in concrete scenarios. -/
def e12 : Int × String × ℚ := (12, "12 AWG", 1.588)

/-- The 14 AWG table entry, used in concrete scenarios. -/
def e14 : Int × String × ℚ := (14, "14 AWG", 2.51)

/-- C1: for every gauge rendered and every input, the row's quantities satisfy
`total_resistance = resistance_per_1000 * (one_way_distance * 2) / 1000`,
`voltage_drop = current * total_resistance`, and
`drop_percent = (voltage_drop / voltage) * 100`. -/
theorem row_formulas (args : Args) (e : Int × String × ℚ)
    (he : e ∈ considered args.gauges) :
    (mkRow args e).total_resistance = e.2.2 * (args.distance * 2) / 1000
    ∧ (mkRow args e).voltage_drop = args.current * (mkRow args e).total_resistance
    ∧ (mkRow args e).drop_percentage
        = (mkRow args e).voltage_drop / args.voltage * 100 :=
  ⟨rfl, rfl, rfl⟩

/-- Witness for C1: the formulas hold for 12 AWG under the default scenario. -/
theorem row_formulas_witness :
    (mkRow args₀ e12).total_resistance = e12.2.2 * (args₀.distance * 2) / 1000
    ∧ (mkRow args₀ e12).voltage_drop = args₀.current * (mkRow args₀ e12).total_resistance
    ∧ (mkRow args₀ e12).drop_percentage
        = (mkRow args₀ e12).voltage_drop / args₀.voltage * 100 :=
  row_formulas args₀ e12 (by simp [args₀, considered, WIRE_GAUGES, e12])

/-- C5: the status of every row is exactly the inclusive comparison
`drop_percent <= max_drop`; in particular a drop percentage equal to
`max_drop` is marked as passing (`"✓ OK"`). -/
theorem status_inclusive_boundary (args : Args) (e : Int × String × ℚ) :
    (mkRow args e).status
        = (if dropPercentage args e.2.2 ≤ args.max_drop then "✓ OK"
           else "✗ Too much drop")
    ∧ (dropPercentage args e.2.2 = args.max_drop → (mkRow args e).status = "✓ OK") := by
  refine ⟨rfl, fun h => ?_⟩
  simp [mkRow, h]

/-- Witness for C5: with voltage 100 V, current 1 A, distance 500 ft and
`max_drop = 64.90`, the 28 AWG entry lands exactly on the threshold and is
marked passing. -/
theorem status_inclusive_boundary_witness :
    dropPercentage ⟨100, 1, 500, 64.90, none⟩ ((28 : Int), "28 AWG", (64.90 : ℚ)).2.2
        = Args.max_drop ⟨100, 1, 500, 64.90, none⟩
    ∧ (mkRow ⟨100, 1, 500, 64.90, none⟩ ((28 : Int), "28 AWG", (64.90 : ℚ))).status
        = "✓ OK" := by
  have h : dropPercentage ⟨100, 1, 500, 64.90, none⟩ ((28 : Int), "28 AWG", (64.90 : ℚ)).2.2
      = Args.max_drop ⟨100, 1, 500, 64.90, none⟩ := by
    norm_num [dropPercentage, voltageDrop, totalResistance, totalDistance]
  exact ⟨h, (status_inclusive_boundary ⟨100, 1, 500, 64.90, none⟩ _).2 h⟩

/-- C8 counterexample: in the default scenario the 12 AWG drop percentage is
not the claimed `2.6467` — the exact value is `397/150 = 2.6466...`, of which
`2.6467` is only the 4-decimal rounding. -/
theorem scenario_dropPercent_cex :
    dropPercentage args₀ e12.2.2 ≠ 2.6467 := by
  norm_num [args₀, e12, dropPercentage, voltageDrop, totalResistance, totalDistance]

/-- C8 (amended): in the default scenario (120 V, 20 A, 50 ft, max drop 3 %),
`total_distance = 100`; 12 AWG has `total_resistance = 0.1588`,
`voltage_drop = 3.176`, exact `drop_percent = 397/150` (which rounds to
`2.6467` at 4 decimal places) and passes; 14 AWG has
`total_resistance = 0.251`, `voltage_drop = 5.02`, exact
`drop_percent = 251/60` (which rounds to `4.1833`) and fails. -/
theorem scenario_values :
    totalDistance args₀ = 100
    ∧ e12 ∈ WIRE_GAUGES
    ∧ totalResistance args₀ e12.2.2 = 0.1588
    ∧ voltageDrop args₀ e12.2.2 = 3.176
    ∧ dropPercentage args₀ e12.2.2 = 397/150
    ∧ ⌊dropPercentage args₀ e12.2.2 * 10000 + 1/2⌋ = 26467
    ∧ (mkRow args₀ e12).status = "✓ OK"
    ∧ e14 ∈ WIRE_GAUGES
    ∧ totalResistance args₀ e14.2.2 = 0.251
    ∧ voltageDrop args₀ e14.2.2 = 5.02
    ∧ dropPercentage args₀ e14.2.2 = 251/60
    ∧ ⌊dropPercentage args₀ e14.2.2 * 10000 + 1/2⌋ = 41833
    ∧ (mkRow args₀ e14).status = "✗ Too much drop" := by
  refine ⟨by norm_num [args₀, totalDistance],
    by simp [e12, WIRE_GAUGES],
    by norm_num [args₀, e12, totalResistance, totalDistance],
    by norm_num [args₀, e12, voltageDrop, totalResistance, totalDistance],
    by norm_num [args₀, e12, dropPercentage, voltageDrop, totalResistance, totalDistance],
    ?_,
    by norm_num [args₀, e12, mkRow, dropPercentage, voltageDrop, totalResistance,
      totalDistance],
    by simp [e14, WIRE_GAUGES],
    by norm_num [args₀, e14, totalResistance, totalDistance],
    by norm_num [args₀, e14, voltageDrop, totalResistance, totalDistance],
    by norm_num [args₀, e14, dropPercentage, voltageDrop, totalResistance, totalDistance],
    ?_,
    by norm_num [args₀, e14, mkRow, dropPercentage, voltageDrop, totalResistance,
      totalDistance]⟩
  · norm_num [args₀, e12, dropPercentage, voltageDrop, totalResistance, totalDistance,
      Int.floor_eq_iff]
  · norm_num [args₀, e14, dropPercentage, voltageDrop, totalResistance, totalDistance,
      Int.floor_eq_iff]

/-- C9: the static table has 19 entries with pairwise-distinct identifiers,
is ordered from 28 AWG (first, highest resistance) down to 0000 AWG (last,
lowest resistance), and its resistances are strictly decreasing along that
order; it is a constant of the development, never mutated. -/
theorem table_invariants :
    WIRE_GAUGES.length = 19
    ∧ (WIRE_GAUGES.map (fun e => e.1)).Nodup
    ∧ List.Pairwise (fun a b : Int × String × ℚ => b.1 < a.1) WIRE_GAUGES
    ∧ List.Pairwise (fun a b : Int × String × ℚ => b.2.2 < a.2.2) WIRE_GAUGES
    ∧ WIRE_GAUGES.head? = some (28, "28 AWG", 64.90)
    ∧ WIRE_GAUGES.getLast? = some (-4, "0000 AWG", 0.0491)
    ∧ (∀ e ∈ WIRE_GAUGES, e.2.2 ≤ 64.90 ∧ 0.0491 ≤ e.2.2) := by
  refine ⟨by decide, wire_ids_nodup, by decide, wire_res_strict_anti, rfl, rfl, ?_⟩
  intro e he
  fin_cases he <;> norm_num

/-- Witness for C9: the bound clause applied to the 12 AWG entry. -/
theorem table_invariants_witness :
    e12.2.2 ≤ 64.90 ∧ 0.0491 ≤ e12.2.2 :=
  table_invariants.2.2.2.2.2.2 e12 (by simp [e12, WIRE_GAUGES])

/-- C2: whenever at least one considered gauge passes, the loop's final
`recommended` value is exactly the first considered gauge (in table iteration
order) whose drop percentage is at most `max_drop`, together with that gauge's
voltage drop and drop percentage. -/
theorem recommended_is_first_passing (args : Args)
    (h : ∃ e ∈ considered args.gauges, dropPercentage args e.2.2 ≤ args.max_drop) :
    ∃ pre e post, considered args.gauges = pre ++ e :: post
      ∧ (∀ e' ∈ pre, ¬ dropPercentage args e'.2.2 ≤ args.max_drop)
      ∧ dropPercentage args e.2.2 ≤ args.max_drop
      ∧ recommendedFor args
          = some (e.2.1, voltageDrop args e.2.2, dropPercentage args e.2.2) := by
  have h' : ∃ e ∈ considered args.gauges, passesB args e = true := by
    rcases h with ⟨e, he, hdp⟩
    exact ⟨e, he, by simpa [passesB] using hdp⟩
  rcases find_first_decomp (passesB args) _ h' with ⟨pre, e, post, hsplit, hpre, hpe, hfind⟩
  refine ⟨pre, e, post, hsplit, ?_, by simpa [passesB] using hpe, ?_⟩
  · intro e' he'
    have := hpre e' he'
    simpa [passesB] using this
  · rw [recommendedFor_eq_find, hfind]
    rfl

/-- Witness for C2: in the default scenario a passing gauge exists
(12 AWG), so the recommendation is the first passing considered gauge. -/
theorem recommended_is_first_passing_witness :
    ∃ pre e post, considered args₀.gauges = pre ++ e :: post
      ∧ (∀ e' ∈ pre, ¬ dropPercentage args₀ e'.2.2 ≤ args₀.max_drop)
      ∧ dropPercentage args₀ e.2.2 ≤ args₀.max_drop
      ∧ recommendedFor args₀
          = some (e.2.1, voltageDrop args₀ e.2.2, dropPercentage args₀ e.2.2) :=
  recommended_is_first_passing args₀
    ⟨e12, by simp [args₀, considered, WIRE_GAUGES, e12],
      by norm_num [args₀, e12, dropPercentage, voltageDrop, totalResistance,
        totalDistance]⟩

/-- C6: when every considered gauge's drop percentage exceeds `max_drop`,
the loop produces no recommendation and the summary line printed after the
table is the warning. -/
theorem no_pass_no_recommendation (args : Args)
    (h : ∀ e ∈ considered args.gauges, args.max_drop < dropPercentage args e.2.2) :
    recommendedFor args = none
    ∧ finalLine (recommendedFor args)
        = "WARNING: Even the largest gauge exceeds acceptable voltage drop!" := by
  have hfind : (considered args.gauges).find? (passesB args) = none := by
    rw [List.find?_eq_none]
    intro e he
    simpa [passesB, not_le] using h e he
  have hrec : recommendedFor args = none := by
    rw [recommendedFor_eq_find, hfind]
    rfl
  exact ⟨hrec, by rw [hrec]; rfl⟩

/-- Witness for C6: at 1 V, 1000 A over 1000 ft every gauge exceeds the 3 %
limit, so no recommendation is produced and the warning line is printed. -/
theorem no_pass_no_recommendation_witness :
    recommendedFor ⟨1, 1000, 1000, 3, none⟩ = none
    ∧ finalLine (recommendedFor ⟨1, 1000, 1000, 3, none⟩)
        = "WARNING: Even the largest gauge exceeds acceptable voltage drop!" := by
  refine no_pass_no_recommendation ⟨1, 1000, 1000, 3, none⟩ ?_
  intro e he
  simp only [considered] at he
  fin_cases he <;>
    norm_num [dropPercentage, voltageDrop, totalResistance, totalDistance]

/-- C3: when the `--gauges` filter holds an identifier absent from the table,
the program emits the invalid-gauge error carrying the offending value and the
list of valid positive gauge identifiers, exits with status 1, and produces no
report. -/
theorem invalid_gauge_aborts (args : Args) (req : List Int)
    (hg : args.gauges = some req) (h : ∃ g ∈ req, g ∉ valid_gauges) :
    ∃ off, off ∈ req ∧ off ∉ valid_gauges
      ∧ run args
          = Output.invalidGauge off [28, 26, 24, 22, 20, 18, 16, 14, 12, 10, 8, 6, 4, 2, 1]
      ∧ exitCode (run args) = 1
      ∧ ∀ rows rec, run args ≠ Output.report rows rec := by
  have h' : ∃ g ∈ req, (!(valid_gauges.contains g)) = true := by
    rcases h with ⟨g, hgr, hgv⟩
    refine ⟨g, hgr, ?_⟩
    simp [contains_eq_decide, hgv]
  have hsome : (req.find? (fun g => !(valid_gauges.contains g))).isSome := by
    rw [List.find?_isSome]
    exact h'
  rcases Option.isSome_iff_exists.mp hsome with ⟨off, hfind⟩
  have hmem : off ∈ req := List.mem_of_find?_eq_some hfind
  have hnotv : off ∉ valid_gauges := by
    have := List.find?_some hfind
    simpa [contains_eq_decide] using this
  have hpos : valid_gauges.filter (fun x => decide (x > 0))
      = [28, 26, 24, 22, 20, 18, 16, 14, 12, 10, 8, 6, 4, 2, 1] := by decide
  have hrun : run args
      = Output.invalidGauge off [28, 26, 24, 22, 20, 18, 16, 14, 12, 10, 8, 6, 4, 2, 1] := by
    unfold run
    rw [hg]
    simp only [hfind, hpos]
  refine ⟨off, hmem, hnotv, hrun, by rw [hrun]; rfl, ?_⟩
  intro rows rec
  rw [hrun]
  exact fun hcontra => Output.noConfusion hcontra

/-- Witness for C3: requesting gauge 99 aborts with the invalid-gauge error. -/
theorem invalid_gauge_aborts_witness :
    ∃ off, off ∈ [(99 : Int)] ∧ off ∉ valid_gauges
      ∧ run ⟨120, 20, 50, 3, some [99]⟩
          = Output.invalidGauge off [28, 26, 24, 22, 20, 18, 16, 14, 12, 10, 8, 6, 4, 2, 1]
      ∧ exitCode (run ⟨120, 20, 50, 3, some [99]⟩) = 1
      ∧ ∀ rows rec, run ⟨120, 20, 50, 3, some [99]⟩ ≠ Output.report rows rec :=
  invalid_gauge_aborts ⟨120, 20, 50, 3, some [99]⟩ [99] rfl ⟨99, by decide, by decide⟩

/-- Inputs with a negative current, used to refute unrestricted monotonicity. -/
def argsNeg : Args := ⟨1, -1, 1, 3, none⟩

/-- C4 counterexample: with voltage 1 V, current −1 A, distance 1 ft, the
28 AWG entry (table position 0) has a strictly smaller drop percentage than
the 26 AWG entry (table position 1), so the later entry's drop percentage is
not ≤ the earlier one's: monotonicity fails for a negative current. -/
theorem drop_monotone_cex :
    ¬ (dropPercentage argsNeg (WIRE_GAUGES.get ⟨1, by decide⟩).2.2
        ≤ dropPercentage argsNeg (WIRE_GAUGES.get ⟨0, by decide⟩).2.2) := by
  show ¬ (dropPercentage argsNeg (40.81 : ℚ) ≤ dropPercentage argsNeg (64.90 : ℚ))
  norm_num [argsNeg, dropPercentage, voltageDrop, totalResistance, totalDistance]

/-- C4 (amended): for positive voltage and nonnegative current and distance,
the drop percentage is monotonically non-increasing along the table: a later
(thicker) entry's drop percentage never exceeds an earlier (thinner) one's. -/
theorem drop_monotone_nonneg (args : Args) (hv : 0 < args.voltage)
    (hc : 0 ≤ args.current) (hd : 0 ≤ args.distance) (i j : Nat)
    (hi : i < WIRE_GAUGES.length) (hj : j < WIRE_GAUGES.length) (hij : i ≤ j) :
    dropPercentage args (WIRE_GAUGES.get ⟨j, hj⟩).2.2
      ≤ dropPercentage args (WIRE_GAUGES.get ⟨i, hi⟩).2.2 := by
  have key : ∀ r r' : ℚ, r' ≤ r → dropPercentage args r' ≤ dropPercentage args r := by
    intro r r' hr
    have hv' : args.voltage ≠ 0 := ne_of_gt hv
    have hA : 0 ≤ args.current * (args.distance * 2) * 100 / (1000 * args.voltage) := by
      apply div_nonneg
      · apply mul_nonneg (mul_nonneg hc (by linarith)) (by norm_num)
      · linarith
    have e1 : ∀ s : ℚ, dropPercentage args s
        = s * (args.current * (args.distance * 2) * 100 / (1000 * args.voltage)) := by
      intro s
      unfold dropPercentage voltageDrop totalResistance totalDistance
      field_simp
      ring
    rw [e1, e1]
    exact mul_le_mul_of_nonneg_right hr hA
  rcases eq_or_lt_of_le hij with rfl | hlt
  · rfl
  · have hres := (List.pairwise_iff_get.mp wire_res_strict_anti) ⟨i, hi⟩ ⟨j, hj⟩
      (by exact hlt)
    exact key _ _ (le_of_lt hres)

/-- Witness for C4 (amended): under the default scenario the 26 AWG entry
(position 1) drops no more than the 28 AWG entry (position 0). -/
theorem drop_monotone_nonneg_witness :
    dropPercentage args₀ (WIRE_GAUGES.get ⟨1, by decide⟩).2.2
      ≤ dropPercentage args₀ (WIRE_GAUGES.get ⟨0, by decide⟩).2.2 :=
  drop_monotone_nonneg args₀ (by norm_num [args₀]) (by norm_num [args₀])
    (by norm_num [args₀]) 0 1 (by decide) (by decide) (by norm_num)

/-- C7 counterexample: with the filter `--gauges 10,12,14` the rendered
gauge-number column is not `[10, 12, 14]` — the table (thin-to-thick) order
puts 14 AWG first. -/
theorem filter_order_cex :
    (considered (some [10, 12, 14])).map (fun e => e.1) ≠ [10, 12, 14] := by
  decide

/-- C7 (amended): any filter list whose members are exactly 10, 12 and 14 —
in whatever order and multiplicity given on the command line — yields exactly
the three matching rows, in table order: 14 AWG, then 12 AWG, then 10 AWG. -/
theorem filter_rows_table_order (l : List Int)
    (h : ∀ g : Int, g ∈ l ↔ g = 10 ∨ g = 12 ∨ g = 14) :
    considered (some l)
        = [(14, "14 AWG", 2.51), (12, "12 AWG", 1.588), (10, "10 AWG", 0.999)]
    ∧ (considered (some l)).map (fun e => e.1) = [14, 12, 10] := by
  have hc : ∀ g : Int, l.contains g = decide (g = 10 ∨ g = 12 ∨ g = 14) := by
    intro g
    rw [contains_eq_decide]
    exact decide_eq_decide.mpr (h g)
  have hmain : considered (some l)
      = [(14, "14 AWG", 2.51), (12, "12 AWG", 1.588), (10, "10 AWG", 0.999)] := by
    simp only [considered, WIRE_GAUGES, List.filter_cons, List.filter_nil, hc]
    norm_num
  exact ⟨hmain, by rw [hmain]; rfl⟩

/-- Witness for C7 (amended): the filter list `[14, 10, 12, 10]` — out of
order and with a duplicate — still renders 14 AWG, 12 AWG, 10 AWG. -/
theorem filter_rows_table_order_witness :
    considered (some [14, 10, 12, 10])
        = [(14, "14 AWG", 2.51), (12, "12 AWG", 1.588), (10, "10 AWG", 0.999)]
    ∧ (considered (some [14, 10, 12, 10])).map (fun e => e.1) = [14, 12, 10] :=
  filter_rows_table_order [14, 10, 12, 10] (by
    intro g
    simp only [List.mem_cons, List.not_mem_nil, or_false]
    tauto)

/-- C10: for a fully valid filter list, the rendered rows have pairwise
distinct gauge numbers and their gauge numbers are exactly the distinct
requested identifiers; moreover any two filter lists with the same members —
in particular a list and its deduplication — produce identical considered
entries, identical rows and an identical recommendation. -/
theorem filter_duplicates_harmless (l l' : List Int)
    (hval : ∀ g ∈ l, g ∈ valid_gauges)
    (hset : ∀ g : Int, g ∈ l ↔ g ∈ l') (v c d m : ℚ) :
    ((considered (some l)).map (fun e => e.1)).Nodup
    ∧ (∀ g : Int, g ∈ (considered (some l)).map (fun e => e.1) ↔ g ∈ l)
    ∧ considered (some l) = considered (some l')
    ∧ rowsFor ⟨v, c, d, m, some l⟩ = rowsFor ⟨v, c, d, m, some l'⟩
    ∧ recommendedFor ⟨v, c, d, m, some l⟩ = recommendedFor ⟨v, c, d, m, some l'⟩ := by
  have hcons : considered (some l) = considered (some l') := by
    simp only [considered]
    refine List.filter_congr ?_
    intro e _
    rw [contains_eq_decide, contains_eq_decide]
    exact decide_eq_decide.mpr (hset e.1)
  have hnodup : ((considered (some l)).map (fun e => e.1)).Nodup := by
    have hsub : ((considered (some l)).map (fun e => e.1)).Sublist
        (WIRE_GAUGES.map (fun e => e.1)) := by
      simp only [considered]
      exact List.Sublist.map _ (List.filter_sublist _)
    exact List.Nodup.sublist hsub wire_ids_nodup
  have hmem : ∀ g : Int, g ∈ (considered (some l)).map (fun e => e.1) ↔ g ∈ l := by
    intro g
    simp only [considered, List.mem_map, List.mem_filter]
    constructor
    · rintro ⟨e, ⟨_, hcont⟩, rfl⟩
      rw [contains_eq_decide] at hcont
      exact of_decide_eq_true hcont
    · intro hgl
      have hgv : g ∈ WIRE_GAUGES.map (fun e => e.1) := hval g hgl
      rcases List.mem_map.mp hgv with ⟨e, heW, he1⟩
      exact ⟨e, ⟨heW, by rw [contains_eq_decide, he1]; exact decide_eq_true hgl⟩, he1⟩
  refine ⟨hnodup, hmem, hcons, ?_, ?_⟩
  · show (considered (some l)).map (mkRow ⟨v, c, d, m, some l⟩)
        = (considered (some l')).map (mkRow ⟨v, c, d, m, some l'⟩)
    rw [hcons]
    rfl
  · show (considered (some l)).foldl (recStep ⟨v, c, d, m, some l⟩) none
        = (considered (some l')).foldl (recStep ⟨v, c, d, m, some l'⟩) none
    rw [hcons]
    rfl

/-- Witness for C10: the filter `[10, 10, 12]` (duplicate 10) behaves exactly
like `[10, 12]` under the default numeric inputs. -/
theorem filter_duplicates_harmless_witness :
    ((considered (some [10, 10, 12])).map (fun e => e.1)).Nodup
    ∧ (∀ g : Int, g ∈ (considered (some [10, 10, 12])).map (fun e => e.1)
        ↔ g ∈ [10, 10, 12])
    ∧ considered (some [10, 10, 12]) = considered (some [10, 12])
    ∧ rowsFor ⟨120, 20, 50, 3, some [10, 10, 12]⟩
        = rowsFor ⟨120, 20, 50, 3, some [10, 12]⟩
    ∧ recommendedFor ⟨120, 20, 50, 3, some [10, 10, 12]⟩
        = recommendedFor ⟨120, 20, 50, 3, some [10, 12]⟩ :=
  filter_duplicates_harmless [10, 10, 12] [10, 12] (by decide)
    (by
      intro g
      simp only [List.mem_cons, List.not_mem_nil, or_false]
      tauto)
    120 20 50 3

end Wgrs
